import Mathlib

/-
  Verification development for the predictx-neural trading backend.

  The definitions below are a shallow embedding, in Lean, of the position
  management, trade execution and backtest code of the repository:

  * backend/utils/smc_utils.py          (StrategyConfig)
  * backend/services/trade_manager.py   (TradeManager)
  * backend/services/position_manager.py(PositionManager)
  * backend/services/trading_service.py (TradingService.calculate_execution)
  * backend/services/backtest_service.py(run_backtest_v2 exit logic)

  Prices, balances and percentages are modelled as rationals.  The
  exchange helper price_to_precision is modelled as the identity, and each
  exchange call is modelled as an emitted action (ExAction); a fallible
  exchange call is an Option-valued function, none meaning the call raised.
-/

namespace PredictX

/-- Side of an open futures position. position_manager uses the strings
    "long" / "short", trade_manager the strings "BUY" / "SELL" for the same
    notion; both are embedded as this inductive (long = BUY). -/
inductive Side where
  | long
  | short
  deriving DecidableEq

namespace StrategyConfig

/-- StrategyConfig.MAX_DRAWDOWN_PER_TRADE = 0.02 (smc_utils.py line 8). -/
def MAX_DRAWDOWN_PER_TRADE : ℚ := 2/100

/-- StrategyConfig.BASE_LEVERAGE = 150 (smc_utils.py line 9). -/
def BASE_LEVERAGE : ℚ := 150

/-- StrategyConfig.DEFAULT_SL_PCT = 0.005 (smc_utils.py line 10). -/
def DEFAULT_SL_PCT : ℚ := 5/1000

/-- StrategyConfig.DEFAULT_TP_PCT = 0.015 (smc_utils.py line 11). -/
def DEFAULT_TP_PCT : ℚ := 15/1000

/-- StrategyConfig.MIN_CONFIDENCE = 20 (smc_utils.py line 13). -/
def MIN_CONFIDENCE : ℚ := 20

/-- One entry of StrategyConfig.TRAILING_CONFIG: a trigger (favorable
    price-move fraction), the stop-loss move and the optional take-profit
    move relative to the entry price. -/
structure TrailLevel where
  trigger : ℚ
  sl_move : ℚ
  tp_move : Option ℚ
  deriving DecidableEq

/-- TRAILING_CONFIG LEVEL_1 (smc_utils.py line 21). -/
def LEVEL_1 : TrailLevel := ⟨2/1000, 0, none⟩

/-- TRAILING_CONFIG LEVEL_2 (smc_utils.py line 22). -/
def LEVEL_2 : TrailLevel := ⟨5/1000, 1/1000, some (2/100)⟩

/-- TRAILING_CONFIG LEVEL_3 (smc_utils.py line 23). -/
def LEVEL_3 : TrailLevel := ⟨1/100, 5/1000, some (3/100)⟩

end StrategyConfig

/-- An open order as returned by fetch_open_orders: its type string
    ("STOP_MARKET", "TAKE_PROFIT_MARKET", "LIMIT"), exchange id, trigger
    price and creation timestamp in milliseconds. -/
structure ExOrder where
  type : String
  id : Nat
  stopPrice : ℚ
  timestamp : ℤ
  deriving DecidableEq

/-- An exchange call emitted by the reconciler: submitting an order
    (type, trigger price, closePosition flag) or cancelling one by id.
    The symbol is the key of the surrounding per-symbol step and the
    amount is irrelevant for closePosition orders, so both are omitted. -/
inductive ExAction where
  | createOrder (type : String) (stopPrice : ℚ) (closePosition : Bool)
  | cancelOrder (id : Nat)
  deriving DecidableEq

/-- Modelled from the spec: trading_service.place_algo_order is called by
    TradeManager._apply_trailing_update but is defined nowhere under the
    sources; per the spec (sections 4.4 and 6) a protective order is
    submitted with close-entire-position semantics at the given trigger
    price, which is what this models. -/
def place_algo_order (type : String) (trigger : ℚ) : ExAction :=
  ExAction.createOrder type trigger true

/-- The trailing targets computed by TradeManager.manage_active_trades
    (trade_manager.py lines 84-107): target_new_sl, target_new_tp and the
    tier label, from the entry price and the current price move. -/
structure TrailTarget where
  sl : ℚ
  tp : ℚ
  tier : String
  deriving DecidableEq

/-- Level selection of TradeManager.manage_active_trades (lines 89-104):
    highest trigger first; LEVEL_1 moves the stop to the entry price for
    either side and leaves the take-profit target at 0 (unset). -/
def manage_trail_targets (side : Side) (entry_price price_move : ℚ) : TrailTarget :=
  if price_move ≥ StrategyConfig.LEVEL_3.trigger then
    { sl := if side = Side.long then entry_price * (1 + StrategyConfig.LEVEL_3.sl_move)
            else entry_price * (1 - StrategyConfig.LEVEL_3.sl_move)
      tp := if side = Side.long then entry_price * (1 + StrategyConfig.LEVEL_3.tp_move.getD 0)
            else entry_price * (1 - StrategyConfig.LEVEL_3.tp_move.getD 0)
      tier := "LEVEL 3 (+1.0%)" }
  else if price_move ≥ StrategyConfig.LEVEL_2.trigger then
    { sl := if side = Side.long then entry_price * (1 + StrategyConfig.LEVEL_2.sl_move)
            else entry_price * (1 - StrategyConfig.LEVEL_2.sl_move)
      tp := if side = Side.long then entry_price * (1 + StrategyConfig.LEVEL_2.tp_move.getD 0)
            else entry_price * (1 - StrategyConfig.LEVEL_2.tp_move.getD 0)
      tier := "LEVEL 2 (+0.5%)" }
  else if price_move ≥ StrategyConfig.LEVEL_1.trigger then
    { sl := entry_price, tp := 0, tier := "LEVEL 1 (+0.2%)" }
  else
    { sl := 0, tp := 0, tier := "" }

/-- The is_better comparison of TradeManager._apply_trailing_update
    (lines 129 and 146): a replacement trigger is better when it is closer
    to locking profit for the given side. -/
def is_better (side : Side) (target current : ℚ) : Prop :=
  match side with
  | Side.long => target > current
  | Side.short => target < current

instance (side : Side) (target current : ℚ) : Decidable (is_better side target current) :=
  match side with
  | Side.long => inferInstanceAs (Decidable (target > current))
  | Side.short => inferInstanceAs (Decidable (target < current))

/-- Stop-loss half of TradeManager._apply_trailing_update (lines 124-139):
    given the target stop, the live stop order (if any) and the exchange id
    the replacement order would get, returns the emitted exchange calls and
    the stop order live afterwards.  price_to_precision is the identity. -/
def sl_update (side : Side) (target_sl : ℚ) (sl_order : Option ExOrder) (fresh : Nat) :
    List ExAction × Option ExOrder :=
  if target_sl > 0 then
    match sl_order with
    | some o =>
      if is_better side target_sl o.stopPrice ∧ |o.stopPrice - target_sl| > target_sl * (1/10000) then
        ((if o.id ≠ 0 then [ExAction.cancelOrder o.id] else []) ++
            [place_algo_order "STOP_MARKET" target_sl],
          some { type := "STOP_MARKET", id := fresh, stopPrice := target_sl, timestamp := 0 })
      else ([], some o)
    | none =>
      ([place_algo_order "STOP_MARKET" target_sl],
        some { type := "STOP_MARKET", id := fresh, stopPrice := target_sl, timestamp := 0 })
  else ([], sl_order)

/-- Take-profit half of TradeManager._apply_trailing_update (lines 141-156),
    mirroring sl_update. -/
def tp_update (side : Side) (target_tp : ℚ) (tp_order : Option ExOrder) (fresh : Nat) :
    List ExAction × Option ExOrder :=
  if target_tp > 0 then
    match tp_order with
    | some o =>
      if is_better side target_tp o.stopPrice ∧ |o.stopPrice - target_tp| > target_tp * (1/10000) then
        ((if o.id ≠ 0 then [ExAction.cancelOrder o.id] else []) ++
            [place_algo_order "TAKE_PROFIT_MARKET" target_tp],
          some { type := "TAKE_PROFIT_MARKET", id := fresh, stopPrice := target_tp, timestamp := 0 })
      else ([], some o)
    | none =>
      ([place_algo_order "TAKE_PROFIT_MARKET" target_tp],
        some { type := "TAKE_PROFIT_MARKET", id := fresh, stopPrice := target_tp, timestamp := 0 })
  else ([], tp_order)

/-- TradeManager._apply_trailing_update (lines 109-159): performs the SL
    update then the TP update, returning all emitted exchange calls and the
    protective orders live afterwards. -/
def apply_trailing_update (side : Side) (target_sl target_tp : ℚ)
    (sl_order tp_order : Option ExOrder) (sl_fresh tp_fresh : Nat) :
    List ExAction × Option ExOrder × Option ExOrder :=
  let s := sl_update side target_sl sl_order sl_fresh
  let t := tp_update side target_tp tp_order tp_fresh
  (s.1 ++ t.1, s.2, t.2)

/-- The stop-loss trigger in force after one TradeManager poll for a long
    position holding a live stop order at trigger sl, when the poll
    observes the favorable price move price_move (manage_active_trades
    followed by the SL half of _apply_trailing_update). -/
def tm_sl_step (entry_price sl price_move : ℚ) : ℚ :=
  let tgt := manage_trail_targets Side.long entry_price price_move
  if tgt.sl > 0 then
    match (sl_update Side.long tgt.sl
        (some { type := "STOP_MARKET", id := 1, stopPrice := sl, timestamp := 0 }) 2).2 with
    | some o => o.stopPrice
    | none => sl
  else sl

/-- The new stop-loss decided by PositionManager.apply_trailing_rules
    (position_manager.py lines 209-265): break-even at +2 percent profit,
    lock +2 percent at +4 percent, dynamic 2-percent trail at +6 percent;
    none when no rule fires or the live stop price is 0. -/
def apply_trailing_rules_newSL (side : Side) (entry_price current_price pnl_pct current_sl : ℚ) :
    Option ℚ :=
  if current_sl = 0 then none
  else
    match side with
    | Side.long =>
      let be_price := entry_price * (1001/1000)
      let lock_price := entry_price * (51/50)
      if pnl_pct ≥ 2/100 ∧ current_sl < be_price then some be_price
      else if pnl_pct ≥ 4/100 ∧ current_sl < lock_price then some lock_price
      else if pnl_pct ≥ 6/100 then
        if current_price * (49/50) > current_sl then some (current_price * (49/50)) else none
      else none
    | Side.short =>
      let be_price := entry_price * (999/1000)
      let lock_price := entry_price * (49/50)
      if pnl_pct ≥ 2/100 ∧ current_sl > be_price then some be_price
      else if pnl_pct ≥ 4/100 ∧ current_sl > lock_price then some lock_price
      else if pnl_pct ≥ 6/100 then
        if current_price * (51/50) < current_sl then some (current_price * (51/50)) else none
      else none

/-- PositionManager._replace_sl (lines 273-299): cancel the old stop, then
    submit the replacement with closePosition true. -/
def replace_sl (old_id : Nat) (new_sl : ℚ) : List ExAction :=
  [ExAction.cancelOrder old_id, ExAction.createOrder "STOP_MARKET" new_sl true]

/-- PositionManager.apply_trailing_rules (lines 209-271): the exchange
    calls emitted for one poll of one symbol holding the stop order
    sl_order.  The final Python truthiness test (if new_sl_price:) is the
    p ≠ 0 guard. -/
def apply_trailing_rules (side : Side) (entry_price current_price pnl_pct : ℚ)
    (sl_order : ExOrder) : List ExAction :=
  match apply_trailing_rules_newSL side entry_price current_price pnl_pct sl_order.stopPrice with
  | some p => if p ≠ 0 then replace_sl sl_order.id p else []
  | none => []

/-- The stop-loss trigger in force after one PositionManager poll of a long
    position holding a live stop at trigger sl, when the poll observes
    (current_price, pnl_pct). -/
def pm_sl_step (entry_price sl : ℚ) (poll : ℚ × ℚ) : ℚ :=
  match apply_trailing_rules_newSL Side.long entry_price poll.1 poll.2 sl with
  | some p => if p ≠ 0 then p else sl
  | none => sl

/-- PositionManager.attach_initial_sl_tp (lines 134-207): dbSl and dbTp are
    the sl_price and tp_price recovered from the persisted trade record, 0
    when no record or no value; if either is 0 both fall back to the
    hardcoded safety percentages.  Emits the STOP_MARKET then the
    TAKE_PROFIT_MARKET order, both with closePosition true. -/
def attach_initial_sl_tp (side : Side) (entry_price dbSl dbTp : ℚ) : List ExAction :=
  let pair : ℚ × ℚ :=
    if dbSl = 0 ∨ dbTp = 0 then
      match side with
      | Side.long => (entry_price * (49/50), entry_price * (53/50))
      | Side.short => (entry_price * (51/50), entry_price * (47/50))
    else (dbSl, dbTp)
  [ExAction.createOrder "STOP_MARKET" pair.1 true,
    ExAction.createOrder "TAKE_PROFIT_MARKET" pair.2 true]

/-- One active position as seen by PositionManager.check_positions:
    symbol, side, entry price, mark price and profit percentage. -/
structure PosInfo where
  symbol : String
  side : Side
  entry_price : ℚ
  mark_price : ℚ
  pnl_pct : ℚ
  deriving DecidableEq

/-- Per-position body of PositionManager.check_positions (lines 107-129):
    attach when no STOP_MARKET and no TAKE_PROFIT_MARKET order is live,
    trail on the first stop order when one is live, otherwise do nothing. -/
def check_position_step (p : PosInfo) (open_orders : List ExOrder) (dbSl dbTp : ℚ) :
    List ExAction :=
  let sl_orders := open_orders.filter (fun o => o.type == "STOP_MARKET")
  let tp_orders := open_orders.filter (fun o => o.type == "TAKE_PROFIT_MARKET")
  match sl_orders, tp_orders with
  | [], [] => attach_initial_sl_tp p.side p.entry_price dbSl dbTp
  | o :: _, _ => apply_trailing_rules p.side p.entry_price p.mark_price p.pnl_pct o
  | [], _ :: _ => []

/-- PositionManager.check_positions (lines 93-132): one poll cycle over the
    active positions.  fetch_open_orders returns none when the call raises;
    the whole per-position loop runs inside a single try block whose except
    is at cycle level, so a raised fetch aborts the remaining positions of
    the cycle.  db gives the persisted (sl_price, tp_price) per symbol.
    Returns the (symbol, emitted calls) pairs of the positions actually
    reconciled. -/
def check_positions (fetch_open_orders : String → Option (List ExOrder))
    (db : String → ℚ × ℚ) : List PosInfo → List (String × List ExAction)
  | [] => []
  | p :: rest =>
    match fetch_open_orders p.symbol with
    | none => []
    | some orders =>
      (p.symbol, check_position_step p orders (db p.symbol).1 (db p.symbol).2)
        :: check_positions fetch_open_orders db rest

/-- Stale LIMIT order cancellation of PositionManager.check_open_orders
    (lines 313-331) for one symbol: cancel every LIMIT order older than 4
    hours (14400000 ms). -/
def stale_cancel_actions (now : ℤ) (orders : List ExOrder) : List ExAction :=
  ((orders.filter (fun o => o.type == "LIMIT")).filter
      (fun o => now - o.timestamp > 14400000)).map (fun o => ExAction.cancelOrder o.id)

/-- PositionManager.check_open_orders (lines 301-336): each target symbol is
    handled inside its own try/except, so a raised fetch (none) yields no
    actions for that symbol but never stops the others. -/
def check_open_orders (fetch_open_orders : String → Option (List ExOrder)) (now : ℤ)
    (target_symbols : List String) : List (String × List ExAction) :=
  target_symbols.map (fun s =>
    (s, match fetch_open_orders s with
        | none => []
        | some orders => stale_cancel_actions now orders))

/-- The action label decided upstream by AIEngine.decide_action: the
    strings BUY_1x, BUY_3x and so on (containing BUY), SELL and HOLD, so
    the Python substring tests (HOLD in action, BUY in action) become the
    isHold / isBuy discriminators. -/
inductive TradeAction where
  | buy (lev : Nat)
  | sell
  | hold
  deriving DecidableEq

/-- Whether the action string contains HOLD. -/
def TradeAction.isHold : TradeAction → Bool
  | TradeAction.hold => true
  | _ => false

/-- Whether the action string contains BUY. -/
def TradeAction.isBuy : TradeAction → Bool
  | TradeAction.buy _ => true
  | _ => false

/-- An SMC setup carried in the signal metadata (entry, sl, tp3), as read
    by TradingService.calculate_execution lines 84-94. -/
structure SmcSetup where
  entry : ℚ
  sl : ℚ
  tp3 : ℚ
  deriving DecidableEq

/-- The execution plan dictionary built by calculate_execution
    (lines 114-128), status EXECUTE. -/
structure ExecPlan where
  side : String
  order_type : String
  leverage : ℚ
  margin : ℚ
  size : ℚ
  price : ℚ
  tp : ℚ
  sl : ℚ
  confidence : ℚ
  deriving DecidableEq

/-- Result of calculate_execution: the HOLD rejection dict or the EXECUTE
    plan. -/
inductive ExecResult where
  | hold_result (reason : String)
  | execute (plan : ExecPlan)
  deriving DecidableEq

/-- Whether the result carries status EXECUTE, that is, a sizing plan. -/
def ExecResult.isExecute : ExecResult → Bool
  | ExecResult.execute _ => true
  | _ => false

/-- The notional position size of the result (the size field of the plan,
    0 for a HOLD rejection). -/
def ExecResult.notional : ExecResult → ℚ
  | ExecResult.execute p => p.size
  | ExecResult.hold_result _ => 0

/-- Python round(x, 2), modelled as round-half-up on cents; Python rounds
    half-cent ties to even instead, a case no claim here exercises. -/
def round2 (x : ℚ) : ℚ := (⌊x * 100 + 1/2⌋ : ℤ) / 100

/-- Confidence-to-leverage ladder of calculate_execution lines 60-66. -/
def leverage_for (confidence : ℚ) : ℚ :=
  if confidence > 85 then 5
  else if confidence > 65 then 3
  else if confidence > 45 then 2
  else 1

/-- Position sizing of calculate_execution lines 68-76: margin is 5 percent
    of balance, notional is margin times leverage; if the notional is under
    the 5 USD minimum and even its double is under it, margin is set to 5
    USD outright.  Returns (margin, notional). -/
def position_sizing (balance confidence : ℚ) : ℚ × ℚ :=
  let leverage := leverage_for confidence
  let margin_usdt := balance * (5/100)
  let position_size_usdt := margin_usdt * leverage
  if position_size_usdt < 5 ∧ position_size_usdt * 2 < 5 then (5, 5 * leverage)
  else (margin_usdt, position_size_usdt)

/-- TradingService.calculate_execution (trading_service.py lines 52-135):
    HOLD actions are rejected; otherwise leverage, margin and notional are
    computed, entry and TP/SL come from the SMC setup when present (LIMIT
    entry unless within 0.1 percent of market) and else from the fixed
    6 percent TP / 2.5 percent SL fallback.  Confidence is never gated. -/
def calculate_execution (balance : ℚ) (action : TradeAction) (confidence current_price : ℚ)
    (smc_setup : Option SmcSetup) : ExecResult :=
  if action.isHold then ExecResult.hold_result "No high confidence signal"
  else
    let leverage := leverage_for confidence
    let ms := position_sizing balance confidence
    let plan : String × ℚ × ℚ × ℚ :=
      match smc_setup with
      | some s =>
        if |s.entry - current_price| / current_price < 1/1000 then
          ("MARKET", current_price, s.tp3, s.sl)
        else ("LIMIT", s.entry, s.tp3, s.sl)
      | none =>
        if action.isBuy then
          ("MARKET", current_price, current_price * (53/50), current_price * (39/40))
        else
          ("MARKET", current_price, current_price * (47/50), current_price * (41/40))
    ExecResult.execute
      { side := if action.isBuy then "BUY" else "SELL"
        order_type := plan.1
        leverage := leverage
        margin := round2 ms.1
        size := round2 ms.2
        price := plan.2.1
        tp := round2 plan.2.2.1
        sl := round2 plan.2.2.2
        confidence := confidence }

/-- One OHLC bar of the backtest series. -/
structure Bar where
  high : ℚ
  low : ℚ
  close : ℚ
  deriving DecidableEq

/-- Exit logic of run_backtest_v2 for a bar on which a position is held
    (backtest_service.py lines 241-301): the fixed take-profit at entry
    times 1.06 is checked first, then the fixed stop-loss at entry times
    0.95, then an AI sell signal with confidence above 32 exits at the bar
    close; otherwise the position is kept.  Returns the exit price and the
    reason label. -/
def backtest_exit (entry_price : ℚ) (bar : Bar) (action : TradeAction) (confidence : ℚ) :
    Option (ℚ × String) :=
  if bar.high ≥ entry_price * (53/50) then some (entry_price * (53/50), "TP (+6%)")
  else if bar.low ≤ entry_price * (19/20) then some (entry_price * (19/20), "SL (-5%)")
  else if action = TradeAction.sell ∧ confidence > 32 then some (bar.close, "AI Sell")
  else none

/-- Concrete position used by the counterexample cycle: symbol AAA. -/
def posA : PosInfo := ⟨"AAA", Side.long, 100, 100, 0⟩

/-- Concrete position used by the counterexample cycle: symbol BBB. -/
def posB : PosInfo := ⟨"BBB", Side.long, 100, 100, 0⟩

/-- A fetch_open_orders double that raises for symbol AAA and succeeds with
    an empty book for every other symbol. -/
def failingFetch : String → Option (List ExOrder) := fun s =>
  if s = "AAA" then none else some []

/-- A trade-record store double with no persisted SL/TP values. -/
def zeroDb : String → ℚ × ℚ := fun _ => (0, 0)

/-- Evaluation rule for round2: if n is the floor of x * 100 + 1/2 and
    n / 100 equals r, then round2 x = r. -/
lemma round2_eval (x r : ℚ) (n : ℤ) (h1 : (n:ℚ) ≤ x * 100 + 1/2) (h2 : x * 100 + 1/2 < n + 1)
    (h3 : (n : ℚ) / 100 = r) : round2 x = r := by
  rw [round2, Int.floor_eq_iff.mpr ⟨h1, h2⟩, h3]

/-- No target is better than itself, for either side. -/
lemma is_better_self (side : Side) (t : ℚ) : ¬ is_better side t t := by
  cases side <;> simp [is_better]

/-- A scanl of a step function that never decreases its state is a
    non-decreasing sequence. -/
lemma chain_le_scanl {α : Type} (f : ℚ → α → ℚ) (hf : ∀ s a, s ≤ f s a) (s : ℚ) (l : List α) :
    (List.scanl f s l).Chain' (· ≤ ·) := by
  induction l generalizing s with
  | nil => simp
  | cons a l ih =>
    rw [List.scanl_cons]
    cases l with
    | nil => simpa using hf s a
    | cons b l2 =>
      rw [List.singleton_append, List.scanl_cons, List.singleton_append]
      exact List.chain'_cons.mpr ⟨hf s a, by
        have h2 := ih (f s a)
        rwa [List.scanl_cons, List.singleton_append] at h2⟩

/-- The stop order live after the SL half of _apply_trailing_update is
    either the original one or a replacement at a strictly better (higher,
    for a long) trigger. -/
lemma sl_update_long_state (t : ℚ) (o : ExOrder) (f : Nat) :
    (sl_update Side.long t (some o) f).2 = some o ∨
    ((sl_update Side.long t (some o) f).2 =
        some { type := "STOP_MARKET", id := f, stopPrice := t, timestamp := 0 } ∧
      o.stopPrice < t) := by
  unfold sl_update
  dsimp only
  split_ifs with h1 h2 h3
  · exact Or.inr ⟨rfl, h2.1⟩
  · exact Or.inr ⟨rfl, h2.1⟩
  · exact Or.inl rfl
  · exact Or.inl rfl

/-- One TradeManager poll never lowers the stop trigger of a long position. -/
lemma tm_sl_step_le (entry_price sl price_move : ℚ) :
    sl ≤ tm_sl_step entry_price sl price_move := by
  unfold tm_sl_step
  dsimp only
  by_cases h : (manage_trail_targets Side.long entry_price price_move).sl > 0
  · rw [if_pos h]
    rcases sl_update_long_state (manage_trail_targets Side.long entry_price price_move).sl
        { type := "STOP_MARKET", id := 1, stopPrice := sl, timestamp := 0 } 2 with h2 | ⟨h2, h3⟩
    · rw [h2]
    · rw [h2]
      exact le_of_lt h3
  · rw [if_neg h]

/-- Every stop decided by apply_trailing_rules for a long position is
    strictly above the current one. -/
lemma apply_trailing_rules_newSL_long_gt (entry_price current_price pnl_pct current_sl p : ℚ)
    (h : apply_trailing_rules_newSL Side.long entry_price current_price pnl_pct current_sl =
      some p) : current_sl < p := by
  unfold apply_trailing_rules_newSL at h
  dsimp only at h
  split_ifs at h with h0 h1 h2 h3 h4 <;> simp_all

/-- One PositionManager poll never lowers the stop trigger of a long position. -/
lemma pm_sl_step_le (entry_price sl : ℚ) (poll : ℚ × ℚ) : sl ≤ pm_sl_step entry_price sl poll := by
  unfold pm_sl_step
  cases hm : apply_trailing_rules_newSL Side.long entry_price poll.1 poll.2 sl with
  | none => exact le_rfl
  | some p =>
    have hlt := apply_trailing_rules_newSL_long_gt entry_price poll.1 poll.2 sl p hm
    dsimp only
    split_ifs
    · exact le_of_lt hlt
    · exact le_rfl

/-- Re-running the SL half of _apply_trailing_update on the stop order it
    itself produced emits no exchange call. -/
lemma sl_update_twice (side : Side) (t : ℚ) (o : Option ExOrder) (f g : Nat) :
    (sl_update side t (sl_update side t o f).2 g).1 = [] := by
  by_cases ht : t > 0
  · cases o with
    | none =>
      simp only [sl_update, if_pos ht]
      simp [is_better_self side t]
    | some o =>
      by_cases hc : is_better side t o.stopPrice ∧ |o.stopPrice - t| > t * (1/10000)
      · simp only [sl_update, if_pos ht, if_pos hc]
        simp [is_better_self side t]
      · simp only [sl_update, if_pos ht, if_neg hc]
  · simp [sl_update, if_neg ht]

/-- Re-running the TP half of _apply_trailing_update on the take-profit
    order it itself produced emits no exchange call. -/
lemma tp_update_twice (side : Side) (t : ℚ) (o : Option ExOrder) (f g : Nat) :
    (tp_update side t (tp_update side t o f).2 g).1 = [] := by
  by_cases ht : t > 0
  · cases o with
    | none =>
      simp only [tp_update, if_pos ht]
      simp [is_better_self side t]
    | some o =>
      by_cases hc : is_better side t o.stopPrice ∧ |o.stopPrice - t| > t * (1/10000)
      · simp only [tp_update, if_pos ht, if_pos hc]
        simp [is_better_self side t]
      · simp only [tp_update, if_pos ht, if_neg hc]
  · simp [tp_update, if_neg ht]

/-- C1: for an open long position, across successive polls feeding a
    non-decreasing sequence of favorable price excursions to the trailing
    logic, the stop-loss triggers in force form a non-decreasing sequence —
    both for the TradeManager level logic (tm_sl_step) and for the
    PositionManager trailing rules (pm_sl_step), whose in-force stop is in
    fact non-decreasing for every poll sequence. -/
theorem trailing_sl_monotone (entry_price sl0 : ℚ) (moves : List ℚ) (polls : List (ℚ × ℚ))
    (hmoves : moves.Chain' (· ≤ ·)) :
    (List.scanl (tm_sl_step entry_price) sl0 moves).Chain' (· ≤ ·) ∧
    (List.scanl (pm_sl_step entry_price) sl0 polls).Chain' (· ≤ ·) :=
  ⟨chain_le_scanl _ (fun s a => tm_sl_step_le entry_price s a) sl0 moves,
    chain_le_scanl _ (fun s a => pm_sl_step_le entry_price s a) sl0 polls⟩

/-- Witness for C1: entry 100, initial stop 99.5, excursions 0.1, 0.6 and
    3 percent, and two PositionManager polls. -/
theorem trailing_sl_monotone_witness :
    (([1/1000, 3/500, 3/100] : List ℚ).Chain' (· ≤ ·)) ∧
    (List.scanl (tm_sl_step 100) (995/10) [1/1000, 3/500, 3/100]).Chain' (· ≤ ·) ∧
    (List.scanl (pm_sl_step 100) (995/10) [(102, 1/50), (105, 1/20)]).Chain' (· ≤ ·) := by
  have hmoves : (([1/1000, 3/500, 3/100] : List ℚ)).Chain' (· ≤ ·) := by
    simp only [List.chain'_cons, List.chain'_singleton, and_true]
    constructor <;> norm_num
  have h := trailing_sl_monotone 100 (995/10) [1/1000, 3/500, 3/100] [(102, 1/50), (105, 1/20)]
    hmoves
  exact ⟨hmoves, h.1, h.2⟩

/-- C2: a position whose symbol has no live protective orders gets, in one
    reconciler poll, exactly one STOP order and one TAKE_PROFIT order
    submitted, in this sequence, both with closePosition true. -/
theorem attach_exactly_one_stop_one_tp (p : PosInfo) (open_orders : List ExOrder) (dbSl dbTp : ℚ)
    (hsl : open_orders.filter (fun o => o.type == "STOP_MARKET") = [])
    (htp : open_orders.filter (fun o => o.type == "TAKE_PROFIT_MARKET") = []) :
    ∃ sl tp, check_position_step p open_orders dbSl dbTp =
      [ExAction.createOrder "STOP_MARKET" sl true,
        ExAction.createOrder "TAKE_PROFIT_MARKET" tp true] := by
  unfold check_position_step
  rw [hsl, htp]
  unfold attach_initial_sl_tp
  exact ⟨_, _, rfl⟩

/-- Witness for C2: a long position on an empty order book with no
    persisted record. -/
theorem attach_exactly_one_stop_one_tp_witness :
    (([] : List ExOrder).filter (fun o => o.type == "STOP_MARKET") = []) ∧
    ∃ sl tp, check_position_step posA [] 0 0 =
      [ExAction.createOrder "STOP_MARKET" sl true,
        ExAction.createOrder "TAKE_PROFIT_MARKET" tp true] :=
  ⟨rfl, attach_exactly_one_stop_one_tp posA [] 0 0 rfl rfl⟩

/-- C3 counterexample: with entry 100, mark 105 and profit percentage 5
    percent on both polls, the first PositionManager poll replaces the stop
    99.5 by the break-even stop 100.1, and the second poll, given exactly
    the stop produced by the first, issues a second cancel-and-replace
    moving it to the lock price 102 — the evaluation step is not
    idempotent. -/
theorem apply_trailing_rules_second_replace_cex :
    apply_trailing_rules Side.long 100 105 (5/100)
        { type := "STOP_MARKET", id := 11, stopPrice := 199/2, timestamp := 0 } =
      [ExAction.cancelOrder 11, ExAction.createOrder "STOP_MARKET" (1001/10) true] ∧
    apply_trailing_rules Side.long 100 105 (5/100)
        { type := "STOP_MARKET", id := 12, stopPrice := 1001/10, timestamp := 0 } =
      [ExAction.cancelOrder 12, ExAction.createOrder "STOP_MARKET" 102 true] :=
  ⟨by with_unfolding_all rfl, by with_unfolding_all rfl⟩

/-- C3 as amended: the TradeManager update (_apply_trailing_update) is
    idempotent — re-running it with the same targets on the protective
    orders produced by the first run emits no exchange call — while the
    PositionManager rules are not (see the counterexample). -/
theorem evaluate_trail_idempotent (side : Side) (target_sl target_tp : ℚ)
    (sl0 tp0 : Option ExOrder) (f1 f2 f3 f4 : Nat) :
    (apply_trailing_update side target_sl target_tp
        (apply_trailing_update side target_sl target_tp sl0 tp0 f1 f2).2.1
        (apply_trailing_update side target_sl target_tp sl0 tp0 f1 f2).2.2 f3 f4).1 = [] := by
  unfold apply_trailing_update
  dsimp only
  rw [sl_update_twice, tp_update_twice]
  rfl

/-- C4 counterexample: with two open positions AAA and BBB where the
    fetch_open_orders call for AAA raises and the one for BBB would
    succeed, the poll cycle reconciles neither symbol — the failure on AAA
    aborts the cycle for BBB. -/
theorem check_positions_abort_cex :
    check_positions failingFetch zeroDb [posA, posB] = [] ∧
    posB.symbol ∉ (check_positions failingFetch zeroDb [posA, posB]).map Prod.fst ∧
    (failingFetch posB.symbol).isSome = true := by
  refine ⟨by with_unfolding_all rfl, ?_, by with_unfolding_all rfl⟩
  rw [show check_positions failingFetch zeroDb [posA, posB] = [] from by with_unfolding_all rfl]
  simp

/-- C4 as amended: in check_positions a raised fetch aborts the remainder
    of the cycle — exactly the positions before the first failure are
    reconciled — whereas in check_open_orders (the stale-entry janitor)
    every symbol is attempted regardless of failures on other symbols. -/
theorem reconciler_isolation_amended :
    (∀ (fetch : String → Option (List ExOrder)) (db : String → ℚ × ℚ) (ps : List PosInfo),
        check_positions fetch db ps =
          (ps.takeWhile (fun p => (fetch p.symbol).isSome)).map
            (fun p => (p.symbol,
              check_position_step p ((fetch p.symbol).getD []) (db p.symbol).1
                (db p.symbol).2))) ∧
    (∀ (fetch : String → Option (List ExOrder)) (now : ℤ) (syms : List String),
        (check_open_orders fetch now syms).map Prod.fst = syms) := by
  constructor
  · intro fetch db ps
    induction ps with
    | nil => rfl
    | cons p rest ih =>
      cases hf : fetch p.symbol with
      | none => simp [check_positions, hf, List.takeWhile_cons]
      | some orders => simp [check_positions, hf, List.takeWhile_cons, ih]
  · intro fetch now syms
    induction syms with
    | nil => rfl
    | cons s rest ih => simpa [check_open_orders] using ih

/-- C5 counterexample: a BUY signal with confidence 5, far below
    MIN_CONFIDENCE = 20, still yields a full EXECUTE sizing plan — there is
    no LOW_CONFIDENCE rejection anywhere in the sizer. -/
theorem low_confidence_gate_cex :
    (5:ℚ) < StrategyConfig.MIN_CONFIDENCE ∧
    (calculate_execution 10000 (TradeAction.buy 1) 5 100 none).isExecute = true :=
  ⟨by norm_num [StrategyConfig.MIN_CONFIDENCE], by with_unfolding_all rfl⟩

/-- C5 as amended: the only rejection gate of calculate_execution is a HOLD
    action; every non-HOLD request returns an EXECUTE sizing plan whatever
    its confidence, and MIN_CONFIDENCE is never consulted. -/
theorem no_confidence_gate (balance : ℚ) (action : TradeAction) (confidence current_price : ℚ)
    (smc_setup : Option SmcSetup) (h : action.isHold = false) :
    (calculate_execution balance action confidence current_price smc_setup).isExecute = true := by
  unfold calculate_execution
  simp [h, ExecResult.isExecute]

/-- Witness for C5: a SELL request with confidence 1. -/
theorem no_confidence_gate_witness :
    TradeAction.sell.isHold = false ∧
    (calculate_execution 10000 TradeAction.sell 1 100 none).isExecute = true :=
  ⟨rfl, no_confidence_gate 10000 TradeAction.sell 1 100 none rfl⟩

/-- C6 counterexample: at balance 100 and confidence 90 the sizer produces
    notional 25, which exceeds balance times MAX_DRAWDOWN_PER_TRADE = 2;
    the notional is not capped by the configured per-trade fraction. -/
theorem notional_cap_cex :
    (position_sizing 100 90).2 = 25 ∧
    ¬ ((position_sizing 100 90).2 ≤ 100 * StrategyConfig.MAX_DRAWDOWN_PER_TRADE) ∧
    (calculate_execution 100 (TradeAction.buy 1) 90 100 none).notional = 25 :=
  ⟨by with_unfolding_all rfl, by with_unfolding_all decide, by with_unfolding_all rfl⟩

/-- C6 as amended: margin is the hardcoded 5 percent of balance and
    leverage is at most 5, so the notional is at most a quarter of the
    balance — except when the 5 USD minimum-notional bump fires, in which
    case margin is set to 5 USD with no balance check at all and the
    notional is 5 USD times the leverage, whatever the balance. -/
theorem notional_cap_amended (balance confidence : ℚ) (h : 0 ≤ balance) :
    (position_sizing balance confidence).2 ≤ balance * (1/4) ∨
    (position_sizing balance confidence).2 = 5 * leverage_for confidence := by
  unfold position_sizing
  dsimp only
  split_ifs with hb
  · exact Or.inr rfl
  · left
    have hl5 : leverage_for confidence ≤ 5 := by
      unfold leverage_for
      split_ifs <;> norm_num
    have h0 : (0:ℚ) ≤ balance * (5/100) := by
      have : (0:ℚ) ≤ (5/100 : ℚ) := by norm_num
      exact mul_nonneg h this
    calc balance * (5/100) * leverage_for confidence
        ≤ balance * (5/100) * 5 := mul_le_mul_of_nonneg_left hl5 h0
      _ = balance * (1/4) := by ring

/-- Witness for C6: balance 100, confidence 90. -/
theorem notional_cap_amended_witness :
    (0:ℚ) ≤ 100 ∧
    ((position_sizing 100 90).2 ≤ 100 * (1/4) ∨
      (position_sizing 100 90).2 = 5 * leverage_for 90) :=
  ⟨by norm_num, notional_cap_amended 100 90 (by norm_num)⟩

/-- C7 counterexample: at entry 100, long side and excursion 0.6 percent,
    the level logic selects LEVEL 2 with stop 100.1 as the claim expects,
    but also produces the new take-profit target 102 (LEVEL_2 has tp_move
    0.020), and the update step would cancel-and-replace a take-profit
    standing at the RiskConfig default 101.5 — the take-profit does not
    stay at its default. -/
theorem level2_tp_target_cex :
    manage_trail_targets Side.long 100 (3/500) =
      { sl := 1001/10, tp := 102, tier := "LEVEL 2 (+0.5%)" } ∧
    (102:ℚ) ≠ 0 ∧
    (tp_update Side.long 102
        (some { type := "TAKE_PROFIT_MARKET", id := 7,
                stopPrice := 100 * (1 + StrategyConfig.DEFAULT_TP_PCT), timestamp := 0 }) 8).1 =
      [ExAction.cancelOrder 7, ExAction.createOrder "TAKE_PROFIT_MARKET" 102 true] :=
  ⟨by with_unfolding_all rfl, by norm_num, by with_unfolding_all rfl⟩

/-- C7 as amended: for a long position, any excursion in the LEVEL 2 band
    (at least 0.5 percent, under 1 percent) selects LEVEL 2 and produces
    stop entry times 1.001 together with the new take-profit target entry
    times 1.020. -/
theorem level2_scenario_amended (entry_price price_move : ℚ)
    (h1 : 5/1000 ≤ price_move) (h2 : price_move < 1/100) :
    manage_trail_targets Side.long entry_price price_move =
      { sl := entry_price * (1001/1000), tp := entry_price * (51/50),
        tier := "LEVEL 2 (+0.5%)" } := by
  unfold manage_trail_targets
  rw [if_neg (by simpa [StrategyConfig.LEVEL_3] using not_le.mpr h2),
    if_pos (by simpa [StrategyConfig.LEVEL_2] using h1)]
  simp only [StrategyConfig.LEVEL_2, if_pos rfl]
  norm_num

/-- Witness for C7: entry 100, excursion 0.6 percent gives stop 100.1 and
    take-profit 102. -/
theorem level2_scenario_amended_witness :
    ((5:ℚ)/1000 ≤ 3/500 ∧ (3:ℚ)/500 < 1/100) ∧
    manage_trail_targets Side.long 100 (3/500) =
      { sl := 100 * (1001/1000), tp := 100 * (51/50), tier := "LEVEL 2 (+0.5%)" } :=
  ⟨⟨by norm_num, by norm_num⟩, level2_scenario_amended 100 (3/500) (by norm_num) (by norm_num)⟩

/-- C8 counterexample: with entry 100 and a prior-bar excursion of 0.6
    percent the trailing logic would put the active stop at 100.1, and the
    next bar has low 99.8 piercing it; yet the backtest exit logic keeps
    the position open (it uses a fixed stop at entry times 0.95 and never
    the trailing engine), so the position is not closed at the trailing
    stop price. -/
theorem backtest_trailing_sl_cex :
    (manage_trail_targets Side.long 100 ((1006/10 - 100) / 100)).sl = 1001/10 ∧
    (998:ℚ)/10 < 1001/10 ∧
    backtest_exit 100 { high := 100, low := 998/10, close := 999/10 } TradeAction.hold 0 =
      none :=
  ⟨by with_unfolding_all rfl, by norm_num, by with_unfolding_all rfl⟩

/-- C8 as amended: the backtest stop is the fixed entry times 0.95; when a
    bar low pierces it and the bar high does not reach the fixed
    take-profit at entry times 1.06, the position closes at the stop price
    (not the bar close), taking precedence over any signal exit on the
    bar. -/
theorem backtest_fixed_sl_precedence (entry_price : ℚ) (bar : Bar) (action : TradeAction)
    (confidence : ℚ) (hsl : bar.low ≤ entry_price * (19/20))
    (htp : ¬ bar.high ≥ entry_price * (53/50)) :
    backtest_exit entry_price bar action confidence =
      some (entry_price * (19/20), "SL (-5%)") := by
  unfold backtest_exit
  rw [if_neg htp, if_pos hsl]

/-- Witness for C8: entry 100, bar with high 96, low 94 and close 95, and
    a sell signal of confidence 99 that is overridden by the stop. -/
theorem backtest_fixed_sl_precedence_witness :
    ((94:ℚ) ≤ 100 * (19/20) ∧ ¬ ((96:ℚ) ≥ 100 * (53/50))) ∧
    backtest_exit 100 { high := 96, low := 94, close := 95 } TradeAction.sell 99 =
      some (100 * (19/20), "SL (-5%)") :=
  ⟨⟨by norm_num, by norm_num⟩,
    backtest_fixed_sl_precedence 100 { high := 96, low := 94, close := 95 } TradeAction.sell 99
      (by norm_num) (by norm_num)⟩

/-- C9 counterexample: attaching protection for a long position at entry
    100 with no usable persisted record submits the stop at 98 and the
    take-profit at 106 — the hardcoded 2 and 6 percent safety values — and
    not at the RiskConfig defaults 99.5 and 101.5. -/
theorem attach_fallback_defaults_cex :
    attach_initial_sl_tp Side.long 100 0 0 =
      [ExAction.createOrder "STOP_MARKET" 98 true,
        ExAction.createOrder "TAKE_PROFIT_MARKET" 106 true] ∧
    (98:ℚ) ≠ 100 * (1 - StrategyConfig.DEFAULT_SL_PCT) ∧
    (106:ℚ) ≠ 100 * (1 + StrategyConfig.DEFAULT_TP_PCT) :=
  ⟨by with_unfolding_all rfl, by norm_num [StrategyConfig.DEFAULT_SL_PCT],
    by norm_num [StrategyConfig.DEFAULT_TP_PCT]⟩

/-- C9 as amended: with no usable persisted record (either recovered value
    0), the attach path submits the hardcoded fallback protection entry
    times 0.98 and entry times 1.06 for a long position, both with
    closePosition true. -/
theorem attach_fallback_hardcoded (entry_price dbSl dbTp : ℚ) (h : dbSl = 0 ∨ dbTp = 0) :
    attach_initial_sl_tp Side.long entry_price dbSl dbTp =
      [ExAction.createOrder "STOP_MARKET" (entry_price * (49/50)) true,
        ExAction.createOrder "TAKE_PROFIT_MARKET" (entry_price * (53/50)) true] := by
  unfold attach_initial_sl_tp
  rw [if_pos h]

/-- Witness for C9: entry 100 and an empty record. -/
theorem attach_fallback_hardcoded_witness :
    ((0:ℚ) = 0 ∨ (0:ℚ) = 0) ∧
    attach_initial_sl_tp Side.long 100 0 0 =
      [ExAction.createOrder "STOP_MARKET" (100 * (49/50)) true,
        ExAction.createOrder "TAKE_PROFIT_MARKET" (100 * (53/50)) true] :=
  ⟨Or.inl rfl, attach_fallback_hardcoded 100 0 0 (Or.inl rfl)⟩

/-- C10: a position with a live TAKE_PROFIT order but no STOP order gets no
    corrective action from a reconciler poll: the attach branch needs both
    order lists empty and the trailing branch needs a stop order, so the
    position stays without a stop-loss. -/
theorem tp_without_sl_no_action (p : PosInfo) (open_orders : List ExOrder) (dbSl dbTp : ℚ)
    (hsl : open_orders.filter (fun o => o.type == "STOP_MARKET") = [])
    (htp : open_orders.filter (fun o => o.type == "TAKE_PROFIT_MARKET") ≠ []) :
    check_position_step p open_orders dbSl dbTp = [] := by
  unfold check_position_step
  rw [hsl]
  rcases hlist : open_orders.filter (fun o => o.type == "TAKE_PROFIT_MARKET") with _ | ⟨o, rest⟩
  · exact absurd hlist htp
  · rw [hlist]

/-- Witness for C10: a book holding only a take-profit order at 106. -/
theorem tp_without_sl_no_action_witness :
    (([⟨"TAKE_PROFIT_MARKET", 5, 106, 0⟩] : List ExOrder).filter
        (fun o => o.type == "STOP_MARKET") = [] ∧
      ([⟨"TAKE_PROFIT_MARKET", 5, 106, 0⟩] : List ExOrder).filter
        (fun o => o.type == "TAKE_PROFIT_MARKET") ≠ []) ∧
    check_position_step posA [⟨"TAKE_PROFIT_MARKET", 5, 106, 0⟩] 0 0 = [] := by
  refine ⟨⟨by with_unfolding_all rfl, ?_⟩,
    tp_without_sl_no_action posA [⟨"TAKE_PROFIT_MARKET", 5, 106, 0⟩] 0 0
      (by with_unfolding_all rfl) ?_⟩ <;>
    · intro hcon
      simpa using congrArg List.length hcon

end PredictX
